import Mathlib

/-!
# QCEngine — verification of the frame-lifecycle and resource-ownership engine

Shallow embedding of the most complete snapshot of the QCEngine Vulkan
renderer (the snapshot containing the deletion queue, the minimized-window
short-circuit, the mesh pipeline, and the reusable `PipelineBuilder`).

Pure data-structure code (`DeletionQueue`, `PipelineBuilder` state,
`load_shader_module`, `upload_mesh`) is embedded as Lean functions over
lists and naturals; the stateful frame loop (`draw`, `run`) is embedded as
a trace-producing function: each Vulkan / SDL call becomes an event in an
explicit event list, and results of external API calls are supplied by an
environment parameter.  Opaque Vulkan handles (modules, layouts, pipelines)
are represented by natural-number tokens; `0` plays the role of
`VK_NULL_HANDLE`.
-/

namespace QCEngine

/-! ## DeletionQueue (vk_engine.h of the final snapshot)

```cpp
struct DeletionQueue
{
    std::deque<std::function<void()>> deletors;

    void push_function(std::function<void()>&& fn)
    {
        deletors.push_back(fn);
    }

    void flush()
    {
        for (auto it = deletors.rbegin(); it != deletors.rend(); it++)
        {
            (*it)();
        }
        deletors.clear();
    }
};
```

Teardown closures are abstracted to values of a type `α`; `flush` returns
the sequence of invoked actions (in invocation order) together with the
queue left behind. -/

structure DeletionQueue (α : Type) where
  deletors : List α
  deriving Repr, DecidableEq

/-- The queue a fresh `DeletionQueue` member starts out as (empty deque). -/
def DeletionQueue.emptyQueue {α : Type} : DeletionQueue α := ⟨[]⟩

/-- `push_function`: `deletors.push_back(fn)`. -/
def DeletionQueue.push_function {α : Type} (q : DeletionQueue α) (fn : α) :
    DeletionQueue α :=
  ⟨q.deletors ++ [fn]⟩

/-- `flush`: iterate `rbegin → rend` invoking each deletor, then
`deletors.clear()`.  Returns the invocation order and the cleared queue. -/
def DeletionQueue.flush {α : Type} (q : DeletionQueue α) :
    List α × DeletionQueue α :=
  (q.deletors.reverse, ⟨[]⟩)

/-- Push a whole list of teardown actions, first element first. -/
def DeletionQueue.pushAll {α : Type} (q : DeletionQueue α) (fns : List α) :
    DeletionQueue α :=
  fns.foldl DeletionQueue.push_function q

theorem DeletionQueue.pushAll_deletors {α : Type} (q : DeletionQueue α)
    (fns : List α) : (q.pushAll fns).deletors = q.deletors ++ fns := by
  induction fns generalizing q with
  | nil => simp [DeletionQueue.pushAll]
  | cons f fs ih =>
      simp [DeletionQueue.pushAll] at ih ⊢
      rw [ih]
      simp [DeletionQueue.push_function]

/-- C1: every sequence of N ≥ 1 teardown actions pushed via `push_function`
is invoked by a single `flush` in exactly reverse insertion order, and the
queue holds zero actions after `flush` returns. -/
theorem deletionQueue_flush_reverse_and_empties {α : Type} (fns : List α)
    (h : 1 ≤ fns.length) :
    (DeletionQueue.emptyQueue.pushAll fns).flush.1 = fns.reverse ∧
    (DeletionQueue.emptyQueue.pushAll fns).flush.2.deletors = [] := by
  constructor
  · simp [DeletionQueue.flush, DeletionQueue.pushAll_deletors,
      DeletionQueue.emptyQueue]
  · simp [DeletionQueue.flush]

/-- C1 witness: three pushed actions run as 3, 2, 1 and leave the queue empty. -/
theorem deletionQueue_flush_reverse_witness :
    (DeletionQueue.emptyQueue.pushAll [1, 2, 3]).flush.1 = [3, 2, 1] ∧
    (DeletionQueue.emptyQueue.pushAll [1, 2, 3]).flush.2.deletors =
      ([] : List Nat) := by
  have h := deletionQueue_flush_reverse_and_empties [1, 2, 3] (by decide)
  exact ⟨h.1, h.2⟩

/-! ## The frame loop (`VulkanEngine::draw`, final snapshot)

`draw()` is embedded as a trace-producing function.  Each Vulkan call made
by `draw` becomes a `DrawOp` event, in the order the source issues them.
`VK_CHECK(x)` evaluates `x`, prints `"Vulkan error: err"` when the result
is nonzero, and always falls through to the next statement (its body is a
`do { if (err) { std::cout << ... } } while (0)` with no abort, exit,
throw or return); the printing is modelled as a `log` event following the
checked call, driven by an environment `res : DrawOp → Int` that supplies
each external call's `VkResult`. -/

/-- The three pipelines built by `init_pipelines`. -/
inductive Pipeline
  | triangle
  | altTriangle
  | mesh
  deriving Repr, DecidableEq

/-- The externally visible calls issued by `draw()`, in source order. -/
inductive DrawOp
  | fenceWait        -- vkWaitForFences(_device, 1, &_renderFence, true, 1000000000)
  | fenceReset       -- vkResetFences(_device, 1, &_renderFence)
  | acquireImage     -- vkAcquireNextImageKHR(...)
  | cmdBufReset      -- vkResetCommandBuffer(_mainCommandBuffer, 0)
  | beginCmdBuffer   -- vkBeginCommandBuffer(cmd, &cmdBeginInfo)
  | beginRenderPass  -- vkCmdBeginRenderPass(cmd, &rpInfo, ...)
  | bindPipeline (p : Pipeline)  -- vkCmdBindPipeline(cmd, ..., _meshPipeline)
  | bindVertexBuffer -- vkCmdBindVertexBuffers(cmd, 0, 1, &_monkeyMesh...)
  | pushConstants    -- vkCmdPushConstants(cmd, _meshPipelineLayout, ...)
  | drawCall         -- vkCmdDraw(cmd, _monkeyMesh._vertices.size(), 1, 0, 0)
  | endRenderPass    -- vkCmdEndRenderPass(cmd)
  | endCmdBuffer     -- vkEndCommandBuffer(cmd)
  | queueSubmit      -- vkQueueSubmit(_graphicsQueue, 1, &submit, _renderFence)
  | queuePresent     -- vkQueuePresentKHR(_graphicsQueue, &presentInfo)
  deriving Repr, DecidableEq

/-- An event observed while `draw()` executes: a call being issued, or the
`VK_CHECK` diagnostic line for a nonzero `VkResult`. -/
inductive DrawEvent
  | op (o : DrawOp)
  | log (err : Int)  -- std::cout << "Vulkan error: " << err << std::endl
  deriving Repr, DecidableEq

/-- `VkResult` success code. -/
def VK_SUCCESS : Int := 0

/-- `VkResult` timeout code, returned by a bounded wait that expires. -/
def VK_TIMEOUT : Int := 2

/-- The diagnostic `VK_CHECK` emits for result `err`: one log line when
`err` is nonzero, nothing otherwise.  Control always continues. -/
def checkStep (err : Int) : List DrawEvent :=
  if err ≠ 0 then [DrawEvent.log err] else []

/-- A call wrapped in `VK_CHECK`: the call itself, then its diagnostic. -/
def checkedCall (res : DrawOp → Int) (o : DrawOp) : List DrawEvent :=
  DrawEvent.op o :: checkStep (res o)

/-- The render commands recorded between `vkCmdBeginRenderPass` and
`vkCmdEndRenderPass` in the final snapshot's `draw()`: the mesh pipeline
is bound unconditionally; `_selectedShader` is not consulted. -/
def renderCommands : List DrawOp :=
  [DrawOp.bindPipeline Pipeline.mesh, DrawOp.bindVertexBuffer,
   DrawOp.pushConstants, DrawOp.drawCall]

/-- The event trace of the non-minimized path of `draw()`, in source
order.  `vkCmd*` recording calls return `void` and are not `VK_CHECK`ed. -/
def drawEvents (res : DrawOp → Int) : List DrawEvent :=
  checkedCall res DrawOp.fenceWait ++
  checkedCall res DrawOp.fenceReset ++
  checkedCall res DrawOp.acquireImage ++
  checkedCall res DrawOp.cmdBufReset ++
  checkedCall res DrawOp.beginCmdBuffer ++
  [DrawEvent.op DrawOp.beginRenderPass] ++
  renderCommands.map DrawEvent.op ++
  [DrawEvent.op DrawOp.endRenderPass] ++
  checkedCall res DrawOp.endCmdBuffer ++
  checkedCall res DrawOp.queueSubmit ++
  checkedCall res DrawOp.queuePresent

/-- `VulkanEngine::draw()`.  Arguments: the `SDL_WINDOW_MINIMIZED` flag of
`SDL_GetWindowFlags(_window)`, the `_selectedShader` member, the external
call results, and the `_frameNumber` member.  Returns the event trace and
the `_frameNumber` after the call.  The minimized short-circuit is the
first statement of the function; `_frameNumber++` is the last. -/
def draw (minimized : Bool) (selectedShader : Int) (res : DrawOp → Int)
    (frameNumber : Int) : List DrawEvent × Int :=
  if minimized then ([], frameNumber)
  else (drawEvents res, frameNumber + 1)

/-- Project the calls out of an event trace, dropping diagnostics. -/
def opsOf (t : List DrawEvent) : List DrawOp :=
  t.filterMap fun e =>
    match e with
    | DrawEvent.op o => some o
    | DrawEvent.log _ => none

theorem opsOf_append (s t : List DrawEvent) :
    opsOf (s ++ t) = opsOf s ++ opsOf t :=
  List.filterMap_append _ _ _

theorem opsOf_checkStep (err : Int) : opsOf (checkStep err) = [] := by
  unfold checkStep
  split <;> rfl

theorem opsOf_checkedCall (res : DrawOp → Int) (o : DrawOp) :
    opsOf (checkedCall res o) = [o] := by
  unfold checkedCall
  rw [show (DrawEvent.op o :: checkStep (res o)) =
    [DrawEvent.op o] ++ checkStep (res o) from rfl, opsOf_append,
    opsOf_checkStep]
  rfl

/-- Whatever results the external calls return, the call order of a
non-minimized `draw()` is the fixed source order. -/
theorem opsOf_drawEvents (res : DrawOp → Int) :
    opsOf (drawEvents res) =
      [DrawOp.fenceWait, DrawOp.fenceReset, DrawOp.acquireImage,
       DrawOp.cmdBufReset, DrawOp.beginCmdBuffer, DrawOp.beginRenderPass] ++
      renderCommands ++
      [DrawOp.endRenderPass, DrawOp.endCmdBuffer, DrawOp.queueSubmit,
       DrawOp.queuePresent] := by
  unfold drawEvents
  simp only [opsOf_append, opsOf_checkedCall]
  simp [opsOf, renderCommands]

/-- C2: in every execution of `draw()` that issues GPU work (one that
reaches `vkQueueSubmit`), the render-fence wait is issued before the
render-fence reset, and the command-buffer reset is issued only after that
fence wait. -/
theorem draw_fence_wait_before_reset (minimized : Bool)
    (selectedShader : Int) (res : DrawOp → Int) (frameNumber : Int)
    (hsubmit : DrawOp.queueSubmit ∈
      opsOf (draw minimized selectedShader res frameNumber).1) :
    (opsOf (draw minimized selectedShader res frameNumber).1).indexOf
        DrawOp.fenceWait <
      (opsOf (draw minimized selectedShader res frameNumber).1).indexOf
        DrawOp.fenceReset ∧
    (opsOf (draw minimized selectedShader res frameNumber).1).indexOf
        DrawOp.fenceWait <
      (opsOf (draw minimized selectedShader res frameNumber).1).indexOf
        DrawOp.cmdBufReset := by
  cases minimized with
  | true => simp [draw, opsOf] at hsubmit
  | false =>
      have hd : draw false selectedShader res frameNumber =
          (drawEvents res, frameNumber + 1) := rfl
      rw [hd] at hsubmit ⊢
      rw [opsOf_drawEvents] at hsubmit ⊢
      decide

/-- C2 witness: a non-minimized frame with all calls succeeding submits,
and orders fence wait before fence reset and command-buffer reset. -/
theorem draw_fence_wait_before_reset_witness :
    (opsOf (draw false 0 (fun _ => 0) 0).1).indexOf DrawOp.fenceWait <
      (opsOf (draw false 0 (fun _ => 0) 0).1).indexOf DrawOp.fenceReset ∧
    (opsOf (draw false 0 (fun _ => 0) 0).1).indexOf DrawOp.fenceWait <
      (opsOf (draw false 0 (fun _ => 0) 0).1).indexOf DrawOp.cmdBufReset :=
  draw_fence_wait_before_reset false 0 (fun _ => 0) 0 (by decide)

/-- C3: when the window-minimized predicate is true at the start of
`draw()`, the call issues zero acquire, submit and present operations
(indeed an empty trace), and the frame counter is unchanged on return. -/
theorem draw_minimized_short_circuit (selectedShader : Int)
    (res : DrawOp → Int) (frameNumber : Int) :
    (opsOf (draw true selectedShader res frameNumber).1).count
        DrawOp.acquireImage = 0 ∧
    (opsOf (draw true selectedShader res frameNumber).1).count
        DrawOp.queueSubmit = 0 ∧
    (opsOf (draw true selectedShader res frameNumber).1).count
        DrawOp.queuePresent = 0 ∧
    (draw true selectedShader res frameNumber).1 = [] ∧
    (draw true selectedShader res frameNumber).2 = frameNumber := by
  refine ⟨?_, ?_, ?_, rfl, rfl⟩ <;> rfl

/-! ## The shader selector (`VulkanEngine::run`, final snapshot)

`run()`'s event loop reacts to `SDLK_SPACE` with

```cpp
_selectedShader += 1;
if (_selectedShader > 1) _selectedShader = 0;
```

but the final snapshot's `draw()` records
`vkCmdBindPipeline(cmd, VK_PIPELINE_BIND_POINT_GRAPHICS, _meshPipeline)`
unconditionally and never reads `_selectedShader`. -/

/-- The space-key handler's update of `_selectedShader`. -/
def toggleShader (selectedShader : Int) : Int :=
  let s := selectedShader + 1
  if s > 1 then 0 else s

/-- Is a call a pipeline bind?  Used to collect the binds of a trace. -/
def isBindPipeline (o : DrawOp) : Bool :=
  match o with
  | DrawOp.bindPipeline _ => true
  | _ => false

/-- C4 counterexample: with the selector toggled to 1, the frame's
recording does not bind the second triangle pipeline — it binds the mesh
pipeline — so selector value 1 does not bind the second pipeline. -/
theorem draw_selector_one_binds_mesh_not_alt :
    DrawOp.bindPipeline Pipeline.altTriangle ∉
      opsOf (draw false 1 (fun _ => 0) 0).1 ∧
    DrawOp.bindPipeline Pipeline.mesh ∈
      opsOf (draw false 1 (fun _ => 0) 0).1 := by
  decide

/-- C4 amended: the space-key toggle does alternate `_selectedShader`
deterministically between 0 and 1, but `draw()` never consults it: for
every selector value the only pipeline bound during command recording is
the mesh pipeline, never either of the two triangle pipelines. -/
theorem draw_binds_mesh_pipeline_regardless_of_selector :
    (toggleShader 0 = 1 ∧ toggleShader 1 = 0) ∧
    ∀ (selectedShader : Int) (res : DrawOp → Int) (frameNumber : Int),
      (opsOf (draw false selectedShader res frameNumber).1).filter
          isBindPipeline = [DrawOp.bindPipeline Pipeline.mesh] := by
  refine ⟨⟨by decide, by decide⟩, ?_⟩
  intro selectedShader res frameNumber
  have hd : draw false selectedShader res frameNumber =
      (drawEvents res, frameNumber + 1) := rfl
  rw [hd, opsOf_drawEvents]
  decide

/-! ## The `VK_CHECK` gate (C5)

The macro's comment reads "immediately log error and abort if there's a
vulkan error", but its body only prints; there is no `abort`, `exit`,
`throw` or early return, so execution always continues into the next
statement.  In the trace model this shows up as the full remainder of
`draw()`'s calls still being issued after a failed bounded fence wait. -/

/-- An environment in which the bounded render-fence wait times out
(`vkWaitForFences` returns `VK_TIMEOUT`) and every other call succeeds. -/
def timeoutEnv : DrawOp → Int :=
  fun o => if o = DrawOp.fenceWait then VK_TIMEOUT else 0

/-- C5: evaluating `draw()` at the failing input — the bounded fence wait
returning `VK_TIMEOUT` — shows the error is reported (the `VK_CHECK` log
line is emitted) yet the process does not halt: the fence reset, submit
and present are still issued in the same call, and the frame counter still
advances. -/
theorem vk_check_timeout_reports_but_continues :
    DrawEvent.log VK_TIMEOUT ∈ (draw false 0 timeoutEnv 0).1 ∧
    DrawEvent.op DrawOp.fenceReset ∈ (draw false 0 timeoutEnv 0).1 ∧
    DrawEvent.op DrawOp.queueSubmit ∈ (draw false 0 timeoutEnv 0).1 ∧
    DrawEvent.op DrawOp.queuePresent ∈ (draw false 0 timeoutEnv 0).1 ∧
    (draw false 0 timeoutEnv 0).2 = 1 := by
  refine ⟨?_, ?_, ?_, ?_, rfl⟩ <;> decide

/-! ## PipelineBuilder (PipelineBuilder.h / PipelineBuilder.cpp) and its use
by `init_pipelines` (final snapshot)

The builder is a plain struct of independently settable fields; handles
and `vkinit` default-config structs are represented by distinct
natural-number tokens.  `init_pipelines` builds three pipelines from one
builder instance; the builder state passed to each `build_pipeline` call
is reproduced below exactly as the source mutates it. -/

/-- Vertex-input state: the attribute and binding description arrays
(`pVertexAttributeDescriptions` / `pVertexBindingDescriptions` with their
counts), as tokens. -/
structure VertexInputState where
  attributes : List Nat
  bindings : List Nat
  deriving Repr, DecidableEq

/-- Viewport set field-by-field from the window extent (1700×900). -/
structure Viewport where
  x : Nat
  y : Nat
  width : Nat
  height : Nat
  minDepth : Nat
  maxDepth : Nat
  deriving Repr, DecidableEq

/-- Scissor: offset {0,0} and the window extent. -/
structure Scissor where
  offsetX : Nat
  offsetY : Nat
  extentW : Nat
  extentH : Nat
  deriving Repr, DecidableEq

/-- The `PipelineBuilder` configuration struct. -/
structure PipelineBuilderState where
  shaderStages : List (Nat × Nat)  -- (stage flag, shader module) pairs
  vertexInputInfo : VertexInputState
  inputAssembly : Nat
  viewport : Viewport
  scissor : Scissor
  rasterizer : Nat
  multisampling : Nat
  colorBlendAttachment : Nat
  pipelineLayout : Nat
  depthStencil : Nat
  deriving Repr, DecidableEq

/-! Handle and config tokens.  Distinct resources get distinct tokens;
`0` is `VK_NULL_HANDLE`. -/

def VK_NULL_HANDLE : Nat := 0
def VK_SHADER_STAGE_VERTEX_BIT : Nat := 1
def VK_SHADER_STAGE_FRAGMENT_BIT : Nat := 16
def helloTriangleVertexShader : Nat := 11
def helloTriangleFragShader : Nat := 12
def altHelloVertexShader : Nat := 13
def altHelloFragShader : Nat := 14
def meshVertexShader : Nat := 15
def trianglePipelineLayout : Nat := 21
def meshPipelineLayout : Nat := 22
def triangleListAssembly : Nat := 31  -- vkinit::input_assembly_create_info(TRIANGLE_LIST)
def fillRasterizer : Nat := 32        -- vkinit::rasterization_state_create_info(FILL)
def defaultMultisampling : Nat := 33  -- vkinit::multisampling_state_create_info()
def defaultColorBlend : Nat := 34     -- vkinit::color_blend_attachment_state()
def lessEqualDepthStencil : Nat := 35 -- vkinit::depth_stencil_create_info(true, true, LESS_OR_EQUAL)
def positionAttribute : Nat := 41
def normalAttribute : Nat := 42
def colorAttribute : Nat := 43
def mainVertexBinding : Nat := 44

/-- The builder as configured for the first `build_pipeline` call
(`_trianglePipeline`): hello-triangle stages, empty vertex input, and the
fixed-function state `init_pipelines` sets field-by-field. -/
def builderAtFirstBuild : PipelineBuilderState :=
  { shaderStages :=
      [(VK_SHADER_STAGE_VERTEX_BIT, helloTriangleVertexShader),
       (VK_SHADER_STAGE_FRAGMENT_BIT, helloTriangleFragShader)],
    vertexInputInfo := { attributes := [], bindings := [] },
    inputAssembly := triangleListAssembly,
    viewport :=
      { x := 0, y := 0, width := 1700, height := 900,
        minDepth := 0, maxDepth := 1 },
    scissor := { offsetX := 0, offsetY := 0, extentW := 1700, extentH := 900 },
    rasterizer := fillRasterizer,
    multisampling := defaultMultisampling,
    colorBlendAttachment := defaultColorBlend,
    pipelineLayout := trianglePipelineLayout,
    depthStencil := lessEqualDepthStencil }

/-- The builder at the second `build_pipeline` call
(`_altTrianglePipeline`): `_shaderStages.clear()` followed by two
`push_back`s of the alternate shader pair; nothing else is touched. -/
def builderAtSecondBuild : PipelineBuilderState :=
  { builderAtFirstBuild with
      shaderStages :=
        [(VK_SHADER_STAGE_VERTEX_BIT, altHelloVertexShader),
         (VK_SHADER_STAGE_FRAGMENT_BIT, altHelloFragShader)] }

/-- The builder at the third `build_pipeline` call (`_meshPipeline`): the
vertex-input arrays are pointed at `Vertex::get_vertex_description()`, the
stage list is cleared and refilled with the mesh vertex shader plus the
alternate fragment shader, and `_pipelineLayout` is reassigned to the
newly created `_meshPipelineLayout`. -/
def builderAtThirdBuild : PipelineBuilderState :=
  { builderAtSecondBuild with
      vertexInputInfo :=
        { attributes := [positionAttribute, normalAttribute, colorAttribute],
          bindings := [mainVertexBinding] },
      shaderStages :=
        [(VK_SHADER_STAGE_VERTEX_BIT, meshVertexShader),
         (VK_SHADER_STAGE_FRAGMENT_BIT, altHelloFragShader)],
      pipelineLayout := meshPipelineLayout }

/-- C6 counterexample: between the second and the third `build_pipeline`
call, the builder's pipeline-layout field is also mutated (rebound from
the triangle layout to the mesh layout), contradicting the claim that
between consecutive builds every field other than the shader stages and
the vertex input is reused unchanged. -/
theorem builder_pipeline_layout_mutated_between_builds :
    builderAtThirdBuild.pipelineLayout ≠ builderAtSecondBuild.pipelineLayout := by
  decide

/-- C6 amended: between the first and second builds only the shader-stage
list changes; between the second and third builds the shader stages, the
vertex-input fields and additionally the pipeline layout change; every
other configured field (input assembly, viewport, scissor, rasterizer,
multisample, color blend attachment, depth/stencil) is reused unchanged
across all three builds. -/
theorem builder_field_reuse_across_builds :
    (builderAtSecondBuild.vertexInputInfo = builderAtFirstBuild.vertexInputInfo ∧
     builderAtSecondBuild.inputAssembly = builderAtFirstBuild.inputAssembly ∧
     builderAtSecondBuild.viewport = builderAtFirstBuild.viewport ∧
     builderAtSecondBuild.scissor = builderAtFirstBuild.scissor ∧
     builderAtSecondBuild.rasterizer = builderAtFirstBuild.rasterizer ∧
     builderAtSecondBuild.multisampling = builderAtFirstBuild.multisampling ∧
     builderAtSecondBuild.colorBlendAttachment =
       builderAtFirstBuild.colorBlendAttachment ∧
     builderAtSecondBuild.pipelineLayout = builderAtFirstBuild.pipelineLayout ∧
     builderAtSecondBuild.depthStencil = builderAtFirstBuild.depthStencil ∧
     builderAtSecondBuild.shaderStages ≠ builderAtFirstBuild.shaderStages) ∧
    (builderAtThirdBuild.inputAssembly = builderAtSecondBuild.inputAssembly ∧
     builderAtThirdBuild.viewport = builderAtSecondBuild.viewport ∧
     builderAtThirdBuild.scissor = builderAtSecondBuild.scissor ∧
     builderAtThirdBuild.rasterizer = builderAtSecondBuild.rasterizer ∧
     builderAtThirdBuild.multisampling = builderAtSecondBuild.multisampling ∧
     builderAtThirdBuild.colorBlendAttachment =
       builderAtSecondBuild.colorBlendAttachment ∧
     builderAtThirdBuild.depthStencil = builderAtSecondBuild.depthStencil ∧
     builderAtThirdBuild.shaderStages ≠ builderAtSecondBuild.shaderStages ∧
     builderAtThirdBuild.vertexInputInfo ≠ builderAtSecondBuild.vertexInputInfo ∧
     builderAtThirdBuild.pipelineLayout ≠ builderAtSecondBuild.pipelineLayout) := by
  decide

/-! ## `PipelineBuilder::build_pipeline` (C7)

The source builds a `VkGraphicsPipelineCreateInfo` from the builder fields
— with no stage-count validation — and hands it to
`vkCreateGraphicsPipelines`; on a non-success result it prints
"failed to create pipeline" and returns `VK_NULL_HANDLE`, otherwise the
new handle.  The device call is modelled as an oracle from the create-info
to `Option` of a handle (`none` = non-success result). -/

/-- The fields of `VkGraphicsPipelineCreateInfo` that `build_pipeline`
fills in, including the hardcoded viewport/scissor counts and subpass. -/
structure GraphicsPipelineCreateInfo where
  stageCount : Nat
  stages : List (Nat × Nat)
  vertexInput : VertexInputState
  inputAssembly : Nat
  viewportCount : Nat
  scissorCount : Nat
  rasterizer : Nat
  multisampling : Nat
  colorBlendAttachment : Nat
  layout : Nat
  renderPass : Nat
  subpass : Nat
  depthStencil : Nat
  deriving Repr, DecidableEq

/-- The create-info `build_pipeline` assembles from the builder state:
`stageCount = _shaderStages.size()`, one viewport and one scissor, and
subpass 0. -/
def pipelineInfoOf (b : PipelineBuilderState) (pass : Nat) :
    GraphicsPipelineCreateInfo :=
  { stageCount := b.shaderStages.length,
    stages := b.shaderStages,
    vertexInput := b.vertexInputInfo,
    inputAssembly := b.inputAssembly,
    viewportCount := 1,
    scissorCount := 1,
    rasterizer := b.rasterizer,
    multisampling := b.multisampling,
    colorBlendAttachment := b.colorBlendAttachment,
    layout := b.pipelineLayout,
    renderPass := pass,
    subpass := 0,
    depthStencil := b.depthStencil }

/-- `build_pipeline(device, pass)`: call the device on the assembled
create-info; on failure print the diagnostic and return `VK_NULL_HANDLE`,
on success return the created handle. -/
def build_pipeline (b : PipelineBuilderState) (pass : Nat)
    (device : GraphicsPipelineCreateInfo → Option Nat) : Nat :=
  match device (pipelineInfoOf b pass) with
  | none => VK_NULL_HANDLE  -- "failed to create pipeline"
  | some newPipeline => newPipeline

/-- C7: invoked with an empty shader-stage list, `build_pipeline` passes a
zero-stage create-info to the device call (there is no earlier rejection)
and, when the device rejects it, fails cleanly by returning
`VK_NULL_HANDLE`; the embedding is a total function, so the builder's own
code cannot crash on this path. -/
theorem build_pipeline_zero_stages_fails_cleanly (b : PipelineBuilderState)
    (pass : Nat) (device : GraphicsPipelineCreateInfo → Option Nat)
    (hstages : b.shaderStages = [])
    (hreject : device (pipelineInfoOf b pass) = none) :
    (pipelineInfoOf b pass).stageCount = 0 ∧
    build_pipeline b pass device = VK_NULL_HANDLE := by
  constructor
  · simp [pipelineInfoOf, hstages]
  · simp [build_pipeline, hreject]

/-- C7 witness: a concrete builder with zero stages and a rejecting device
yields a zero-stage create-info and a null pipeline handle. -/
theorem build_pipeline_zero_stages_witness :
    (pipelineInfoOf { builderAtFirstBuild with shaderStages := [] } 7).stageCount
        = 0 ∧
    build_pipeline { builderAtFirstBuild with shaderStages := [] } 7
        (fun _ => none) = VK_NULL_HANDLE :=
  build_pipeline_zero_stages_fails_cleanly
    { builderAtFirstBuild with shaderStages := [] } 7 (fun _ => none) rfl rfl

/-! ## Mesh upload (`VulkanEngine::upload_mesh`, C8)

`upload_mesh` sets `bufferInfo.size = mesh._vertices.size() * sizeof(Vertex)`,
allocates through VMA, maps the allocation and
`memcpy(data, mesh._vertices.data(), mesh._vertices.size() * sizeof(Vertex))`.
The buffer contents are modelled at byte granularity: `memcpy` takes the
first `n` bytes of the source byte image. -/

/-- Modelled from the spec: the `Vertex` struct lives in `Mesh.h`, which is
not among the sources; per the spec's data model it is
position/normal/color, each three 32-bit floats, so nine 32-bit words of
4 bytes each and a stride of 36 bytes.  Each word is carried as its 32-bit
pattern. -/
structure Vertex where
  px : Nat
  py : Nat
  pz : Nat
  nx : Nat
  ny : Nat
  nz : Nat
  cx : Nat
  cy : Nat
  cz : Nat
  deriving Repr, DecidableEq

/-- `sizeof(Vertex)`: nine 32-bit words. -/
def sizeofVertex : Nat := 36

/-- Little-endian byte image of one 32-bit word. -/
def word32Bytes (w : Nat) : List Nat :=
  [w % 256, w / 256 % 256, w / 65536 % 256, w / 16777216 % 256]

/-- The in-memory byte image of one vertex. -/
def vertexBytes (v : Vertex) : List Nat :=
  word32Bytes v.px ++ word32Bytes v.py ++ word32Bytes v.pz ++
  word32Bytes v.nx ++ word32Bytes v.ny ++ word32Bytes v.nz ++
  word32Bytes v.cx ++ word32Bytes v.cy ++ word32Bytes v.cz

/-- The byte image of `mesh._vertices.data()`, vertices in order. -/
def meshVertexBytes (vs : List Vertex) : List Nat :=
  vs.foldr (fun v acc => vertexBytes v ++ acc) []

/-- `memcpy(dest, src, n)`: the destination receives the first `n` bytes
of the source image. -/
def memcpyBytes (src : List Nat) (n : Nat) : List Nat :=
  src.take n

/-- What `upload_mesh` leaves behind: the allocated buffer's byte size and
the bytes written through the mapped pointer. -/
structure UploadedBuffer where
  bufferSize : Nat
  mappedBytes : List Nat
  deriving Repr, DecidableEq

/-- `VulkanEngine::upload_mesh`: allocate
`mesh._vertices.size() * sizeof(Vertex)` bytes, map, copy that many bytes
from the vertex array, unmap. -/
def upload_mesh (vs : List Vertex) : UploadedBuffer :=
  { bufferSize := vs.length * sizeofVertex,
    mappedBytes := memcpyBytes (meshVertexBytes vs) (vs.length * sizeofVertex) }

theorem vertexBytes_length (v : Vertex) : (vertexBytes v).length = 36 := by
  simp [vertexBytes, word32Bytes]

theorem meshVertexBytes_length (vs : List Vertex) :
    (meshVertexBytes vs).length = vs.length * sizeofVertex := by
  induction vs with
  | nil => rfl
  | cons v vs ih =>
      simp [meshVertexBytes] at ih ⊢
      rw [ih, vertexBytes_length]
      simp [sizeofVertex]
      ring

/-- C8: for every vertex list (the empty one included), `upload_mesh`
allocates a buffer of exactly `count × sizeof(Vertex)` bytes and the bytes
copied into the mapped region are byte-identical to the source vertex
list's image; with zero vertices the buffer size is zero and nothing is
copied. -/
theorem upload_mesh_size_and_roundtrip (vs : List Vertex) :
    (upload_mesh vs).bufferSize = vs.length * sizeofVertex ∧
    (upload_mesh vs).mappedBytes = meshVertexBytes vs ∧
    (upload_mesh ([] : List Vertex)).bufferSize = 0 ∧
    (upload_mesh ([] : List Vertex)).mappedBytes = [] := by
  refine ⟨rfl, ?_, rfl, rfl⟩
  show (meshVertexBytes vs).take (vs.length * sizeofVertex) = meshVertexBytes vs
  exact List.take_of_length_le (meshVertexBytes_length vs).le

/-! ## Shader-module loading (`VulkanEngine::load_shader_module`, C9)

The loader opens the file in binary/at-end mode and returns `false` if the
open fails.  Otherwise it allocates
`std::vector<uint32_t> buffer(fileSize / sizeof(uint32_t))` — a heap
buffer of `fileSize / 4` words, i.e. `fileSize / 4 * 4` bytes — and then
executes `file.read((char*)buffer.data(), fileSize)`, writing `fileSize`
bytes into it.  When `fileSize` is not a multiple of 4 this writes 1–3
bytes past the end of the buffer: undefined behavior in the loader's own
code, with no defined outcome.  On the aligned path it sets
`codeSize = buffer.size() * sizeof(uint32_t)` and calls
`vkCreateShaderModule`, returning `false` on a non-success result and
`true` (with the module written through the out-parameter) on success.
There is no emptiness check anywhere on this path.

The file system is modelled as `Option` of the file's bytes (`none` = open
fails) and the device as an oracle from `codeSize` to `Option` of a module
handle; the overall result is `Option`-wrapped, with `none` standing for
the undefined behavior of the out-of-bounds write (the program has no
defined result there — it may crash). -/

/-- The observable outcome of a defined run of `load_shader_module`: its
return value, the out-parameter, and whether the `vkCreateShaderModule`
call was reached. -/
structure ShaderLoadResult where
  returned : Bool
  outShaderModule : Option Nat
  deviceCalled : Bool
  deriving Repr, DecidableEq

/-- `VulkanEngine::load_shader_module`.  A `none` result is the
out-of-bounds heap write: `file.read` stores `fileSize` bytes into the
`fileSize / 4 * 4`-byte word buffer, undefined behavior whenever
`fileSize` is not a multiple of 4. -/
def load_shader_module (file : Option (List Nat))
    (device : Nat → Option Nat) : Option ShaderLoadResult :=
  match file with
  | none => some ⟨false, none, false⟩  -- !file.is_open()
  | some bytes =>
      let fileSize := bytes.length
      -- std::vector<uint32_t> buffer(fileSize / sizeof(uint32_t));
      -- file.read((char*)buffer.data(), fileSize);
      if fileSize % 4 ≠ 0 then
        none  -- write past buffer.data() + fileSize / 4 * 4 : UB
      else
        let codeSize := fileSize / 4 * 4  -- buffer.size() * sizeof(uint32_t)
        match device codeSize with
        | none => some ⟨false, none, true⟩   -- vkCreateShaderModule != VK_SUCCESS
        | some m => some ⟨true, some m, true⟩

/-- C9 counterexample: the loader does not validate non-emptiness — an
empty file's zero-size binary is handed to the device call, and a device
returning success makes the loader report success — and it does not fail
non-fatally on every unopenable-or-rejected input either: a 5-byte file
drives the `file.read` past the end of the word buffer, leaving no defined
non-fatal `false` return even under a rejecting device. -/
theorem load_shader_module_unvalidated_and_overruns :
    load_shader_module (some []) (fun _ => some 7) =
      some ⟨true, some 7, true⟩ ∧
    load_shader_module (some [1, 2, 3, 4, 5]) (fun _ => none) = none := by
  exact ⟨rfl, rfl⟩

/-- C9 amended: when the file size is a multiple of 4 (as every valid
SPIR-V binary is), the loader fails non-fatally — returning `false` with
the module skipped — whenever the file cannot be opened or the device
rejects the binary, and returns `true` with the module exactly when the
device accepts; it performs no non-emptiness validation (an empty file
flows to the device as a zero-size binary); and for a file whose size is
not a multiple of 4 the read writes past the end of the word buffer, so
no non-fatal outcome is guaranteed there. -/
theorem load_shader_module_failure_modes (file : Option (List Nat))
    (device : Nat → Option Nat) :
    (file = none →
      load_shader_module file device = some ⟨false, none, false⟩) ∧
    (∀ bytes, file = some bytes → bytes.length % 4 = 0 →
      device (bytes.length / 4 * 4) = none →
      load_shader_module file device = some ⟨false, none, true⟩) ∧
    (∀ bytes m, file = some bytes → bytes.length % 4 = 0 →
      device (bytes.length / 4 * 4) = some m →
      load_shader_module file device = some ⟨true, some m, true⟩) ∧
    (∀ bytes, file = some bytes → bytes.length % 4 ≠ 0 →
      load_shader_module file device = none) := by
  refine ⟨?_, ?_, ?_, ?_⟩
  · intro hf; subst hf; rfl
  · intro bytes hf halign hdev
    subst hf
    simp [load_shader_module, halign, hdev]
  · intro bytes m hf halign hdev
    subst hf
    simp [load_shader_module, halign, hdev]
  · intro bytes hf hmis
    subst hf
    simp [load_shader_module, hmis]

/-- C9 witness: both defined failure modes, the success mode, and the
undefined misaligned-read mode at concrete inputs. -/
theorem load_shader_module_failure_modes_witness :
    load_shader_module none (fun _ => none) = some ⟨false, none, false⟩ ∧
    load_shader_module (some [1, 2, 3, 4]) (fun _ => none) =
      some ⟨false, none, true⟩ ∧
    load_shader_module (some [1, 2, 3, 4]) (fun _ => some 5) =
      some ⟨true, some 5, true⟩ ∧
    load_shader_module (some [1, 2, 3, 4, 5]) (fun _ => some 5) = none :=
  ⟨(load_shader_module_failure_modes none (fun _ => none)).1 rfl,
   (load_shader_module_failure_modes (some [1, 2, 3, 4]) (fun _ => none)).2.1
     [1, 2, 3, 4] rfl rfl rfl,
   (load_shader_module_failure_modes (some [1, 2, 3, 4]) (fun _ => some 5)).2.2.1
     [1, 2, 3, 4] 5 rfl rfl rfl,
   (load_shader_module_failure_modes (some [1, 2, 3, 4, 5])
     (fun _ => some 5)).2.2.2 [1, 2, 3, 4, 5] rfl (by decide)⟩

/-! ## The main loop (`VulkanEngine::run`, C10)

```cpp
while (!bQuit)
{
    while (SDL_PollEvent(&e) != 0)
    {
        if (e.type == SDL_QUIT) { bQuit = true; }
        else if (e.type == SDL_KEYDOWN) { /* SDLK_SPACE toggles */ }
    }
    draw();
}
```

The event source is scripted as one batch per loop iteration — the events
`SDL_PollEvent` drains before returning 0 in that iteration.  The trace
records each polled event and each `draw()` call, and is modelled up to
exhaustion of the scripted input (the real loop would keep iterating with
empty polls). -/

/-- The event kinds `run()` distinguishes. -/
inductive SDLEventType
  | quit          -- SDL_QUIT
  | keydownSpace  -- SDL_KEYDOWN with sym SDLK_SPACE
  | keydownOther  -- SDL_KEYDOWN with any other sym
  | otherEvent    -- anything else
  deriving Repr, DecidableEq

/-- The loop's mutable state: the local `bQuit` and the `_selectedShader`
member. -/
structure LoopState where
  bQuit : Bool
  selectedShader : Int
  deriving Repr, DecidableEq

/-- The body of the inner event loop for one polled event. -/
def handleEvent (s : LoopState) (e : SDLEventType) : LoopState :=
  match e with
  | SDLEventType.quit => { s with bQuit := true }
  | SDLEventType.keydownSpace =>
      { s with selectedShader := toggleShader s.selectedShader }
  | _ => s

/-- An observable action of `run()`: one event polled, or one `draw()`. -/
inductive RunAction
  | polled (e : SDLEventType)
  | drew
  deriving Repr, DecidableEq

/-- The `run()` loop over scripted per-iteration event batches: while
`!bQuit`, drain the iteration's batch through `handleEvent`, then call
`draw()`. -/
def runLoop (s : LoopState) : List (List SDLEventType) → List RunAction
  | [] => []
  | batch :: rest =>
      if s.bQuit then []
      else
        batch.map RunAction.polled ++
          RunAction.drew :: runLoop (batch.foldl handleEvent s) rest

theorem foldl_handleEvent_bQuit_of_not_mem (batch : List SDLEventType)
    (s : LoopState) (h : SDLEventType.quit ∉ batch) :
    (batch.foldl handleEvent s).bQuit = s.bQuit := by
  induction batch generalizing s with
  | nil => rfl
  | cons e es ih =>
      simp only [List.mem_cons, not_or] at h
      rw [List.foldl_cons, ih _ h.2]
      cases e with
      | quit => exact absurd rfl h.1
      | keydownSpace => rfl
      | keydownOther => rfl
      | otherEvent => rfl

theorem foldl_handleEvent_bQuit_of_mem (batch : List SDLEventType)
    (s : LoopState) (h : SDLEventType.quit ∈ batch) :
    (batch.foldl handleEvent s).bQuit = true := by
  induction batch generalizing s with
  | nil => cases h
  | cons e es ih =>
      rw [List.foldl_cons]
      rcases List.mem_cons.mp h with he | he
      · subst he
        by_cases hq : SDLEventType.quit ∈ es
        · exact ih _ hq
        · rw [foldl_handleEvent_bQuit_of_not_mem es _ hq]
          rfl
      · exact ih _ he

theorem runLoop_of_bQuit (s : LoopState) (batches : List (List SDLEventType))
    (h : s.bQuit = true) : runLoop s batches = [] := by
  cases batches with
  | nil => rfl
  | cons b rest => simp [runLoop, h]

theorem count_drew_map_polled (batch : List SDLEventType) :
    (batch.map RunAction.polled).count RunAction.drew = 0 := by
  rw [List.count_eq_zero]
  intro hmem
  rcases List.mem_map.mp hmem with ⟨e, _, he⟩
  cases he

/-- C10: in `run()`'s main loop, `draw()` is called exactly once per loop
iteration regardless of the events drained in it; when the first quit
event appears in iteration k's batch, the loop still performs that
iteration's `draw()` — so exactly k + 1 draws occur — and the trace ends
with that draw. -/
theorem run_draws_once_per_iteration (selectedShader : Int)
    (batches : List (List SDLEventType)) (k : Nat)
    (hk : k < batches.length)
    (hquit : SDLEventType.quit ∈ batches.getD k [])
    (hbefore : ∀ j, j < k → SDLEventType.quit ∉ batches.getD j []) :
    (runLoop ⟨false, selectedShader⟩ batches).count RunAction.drew = k + 1 ∧
    (runLoop ⟨false, selectedShader⟩ batches).getLast? =
      some RunAction.drew := by
  induction batches generalizing k selectedShader with
  | nil => cases hk
  | cons b rest ih =>
      have hstep : runLoop ⟨false, selectedShader⟩ (b :: rest) =
          b.map RunAction.polled ++
            RunAction.drew ::
              runLoop (b.foldl handleEvent ⟨false, selectedShader⟩) rest := by
        simp [runLoop]
      cases k with
      | zero =>
          have hmem : SDLEventType.quit ∈ b := hquit
          have hquitState :
              (b.foldl handleEvent ⟨false, selectedShader⟩).bQuit = true :=
            foldl_handleEvent_bQuit_of_mem b _ hmem
          have hrest :
              runLoop (b.foldl handleEvent ⟨false, selectedShader⟩) rest = [] :=
            runLoop_of_bQuit _ rest hquitState
          rw [hstep, hrest]
          constructor
          · rw [List.count_append, count_drew_map_polled]
            rfl
          · rw [List.getLast?_append_cons]
            rfl
      | succ j =>
          have hnot : SDLEventType.quit ∉ b := hbefore 0 (Nat.succ_pos j)
          set s' := b.foldl handleEvent ⟨false, selectedShader⟩ with hs'
          have hbq : s'.bQuit = false :=
            foldl_handleEvent_bQuit_of_not_mem b _ hnot
          have hseta : s' = ⟨false, s'.selectedShader⟩ := by
            rw [← hbq]
          have hk' : j < rest.length := Nat.lt_of_succ_lt_succ hk
          have hquit' : SDLEventType.quit ∈ rest.getD j [] := hquit
          have hbefore' : ∀ j2, j2 < j →
              SDLEventType.quit ∉ rest.getD j2 [] := by
            intro j2 hj2
            exact hbefore (j2 + 1) (Nat.succ_lt_succ hj2)
          have ihr := ih s'.selectedShader j hk' hquit' hbefore'
          rw [hstep, ← hseta] at *
          constructor
          · rw [List.count_append, count_drew_map_polled, List.count_cons,
              ihr.1]
            simp
          · have hne : runLoop s' rest ≠ [] := by
              intro hnil
              rw [hnil] at ihr
              cases ihr.2
            rcases htail : runLoop s' rest with _ | ⟨x, xs⟩
            · exact absurd htail hne
            · rw [htail] at ihr
              rw [List.getLast?_append_cons, List.getLast?_cons_cons]
              exact ihr.2

/-- C10 witness: three scripted iterations with the quit event in the
third batch yield exactly three draws, the last one after the quit was
consumed. -/
theorem run_draws_once_per_iteration_witness :
    (runLoop ⟨false, 0⟩
        [[SDLEventType.otherEvent], [SDLEventType.keydownSpace],
         [SDLEventType.quit, SDLEventType.otherEvent]]).count
      RunAction.drew = 3 ∧
    (runLoop ⟨false, 0⟩
        [[SDLEventType.otherEvent], [SDLEventType.keydownSpace],
         [SDLEventType.quit, SDLEventType.otherEvent]]).getLast? =
      some RunAction.drew :=
  run_draws_once_per_iteration 0
    [[SDLEventType.otherEvent], [SDLEventType.keydownSpace],
     [SDLEventType.quit, SDLEventType.otherEvent]] 2
    (by decide) (by decide) (by decide)

end QCEngine
